import Mathlib

/-!
Shallow embedding of the Campus Lost-And-Found client
(src/App.tsx, src/types.ts, src/services/imgbb.ts):
the data model, the client-side post filter, the snapshot
normalization performed by the sync listener, and the
create / resolve / delete mutation handlers modelled as
functions returning the list of remote calls they issue.
-/

/-- Lifecycle status of a post (types.ts: `status` field, values OPEN / RESOLVED). -/
inductive Status where
  | OPEN
  | RESOLVED
  deriving DecidableEq, Repr

/-- Post kind (types.ts: `PostType = LOST | FOUND`). -/
inductive PostType where
  | LOST
  | FOUND
  deriving DecidableEq, Repr

/-- Value of the type-filter control (App.tsx: `filterType : ALL | PostType`). -/
inductive FilterType where
  | ALL
  | LOST
  | FOUND
  deriving DecidableEq, Repr

/-- Mirrored post as seen by the client after the sync listener normalized it
(types.ts: interface Post). Optional string fields are carried as plain
strings, with the empty string standing for an absent value, exactly as the
create handler produces them. -/
structure Post where
  id : String
  type : PostType
  title : String
  description : String
  location : String
  date : String
  category : String
  imageUrl : String
  contactEmail : String
  contactPhone : String
  createdBy : String
  creatorName : String
  creatorPhoto : String
  createdAt : Int
  status : Status
  deriving DecidableEq, Repr

/-- Authenticated principal (the fields of the firebase User that App.tsx reads:
uid, displayName, email, photoURL; the latter three are nullable). -/
structure UserInfo where
  uid : String
  displayName : Option String
  email : Option String
  photoURL : Option String
  deriving DecidableEq, Repr

/-- Opaque image file attached to the create form. -/
structure ImageFile where
  fileName : String
  deriving DecidableEq, Repr

/-- State of the create form (App.tsx: interface NewPostForm). -/
structure NewPostForm where
  type : PostType
  title : String
  description : String
  location : String
  date : String
  category : String
  contactEmail : String
  contactPhone : String
  imageFile : Option ImageFile
  deriving DecidableEq, Repr

/-- Model of the JavaScript `String.prototype.toLowerCase` as used on the
ASCII content handled by the app: per-character lower-casing of basic latin
letters, which is exactly what `Char.toLower` performs. -/
def jsToLowerCase (s : String) : String :=
  String.mk (s.data.map Char.toLower)

/-- Model of the JavaScript `String.prototype.toUpperCase` on ASCII content,
used only to state the case-insensitivity property of the filter. -/
def jsToUpperCase (s : String) : String :=
  String.mk (s.data.map Char.toUpper)

/-- Check that the second list starts with the first one. -/
def startsWithChars : List Char → List Char → Bool
  | [], _ => true
  | _ :: _, [] => false
  | a :: as, b :: bs => a == b && startsWithChars as bs

/-- Check that `sub` occurs contiguously somewhere in the second list. -/
def hasSubstrChars (sub : List Char) : List Char → Bool
  | [] => startsWithChars sub []
  | c :: rest => startsWithChars sub (c :: rest) || hasSubstrChars sub rest

/-- Model of the JavaScript `s.includes(sub)`: substring containment, with the
empty needle contained in every string. -/
def jsIncludes (s sub : String) : Bool :=
  hasSubstrChars sub.data s.data

/-- Model of the JavaScript `x || fallback` on a nullable string value:
null / undefined and the empty string are falsy and select the fallback. -/
def jsOrStr (x : Option String) (fallback : String) : String :=
  match x with
  | none => fallback
  | some s => if s == "" then fallback else s

/-- Search clause of the filter (App.tsx lines 195-198): the lower-cased
search term must occur in the lower-cased title, description, location or
category. -/
def matchesSearch (searchTerm : String) (post : Post) : Bool :=
  jsIncludes (jsToLowerCase post.title) (jsToLowerCase searchTerm) ||
  jsIncludes (jsToLowerCase post.description) (jsToLowerCase searchTerm) ||
  jsIncludes (jsToLowerCase post.location) (jsToLowerCase searchTerm) ||
  jsIncludes (jsToLowerCase post.category) (jsToLowerCase searchTerm)

/-- Injection of a post type into the filter-control value space, embedding the
TypeScript comparison `post.type === filterType` across the union type. -/
def filterTypeOfPost : PostType → FilterType
  | PostType.LOST => FilterType.LOST
  | PostType.FOUND => FilterType.FOUND

/-- Type clause of the filter (App.tsx line 199):
`filterType === ALL || post.type === filterType`. -/
def matchesType (filterType : FilterType) (post : Post) : Bool :=
  filterType == FilterType.ALL || filterTypeOfPost post.type == filterType

/-- The derived view `filteredPosts` (App.tsx lines 194-201):
`posts.filter(post => matchesSearch && matchesType)`. -/
def filteredPosts (posts : List Post) (searchTerm : String)
    (filterType : FilterType) : List Post :=
  posts.filter (fun post => matchesSearch searchTerm post && matchesType filterType post)

/-- Value stored in the `createdAt` field of a document sent to the store:
either a concrete client-clock value (`Date.now()`) or the
`serverTimestamp()` sentinel. -/
inductive CreatedAtField where
  | clientMillis (millis : Int)
  | serverTimestamp
  deriving DecidableEq, Repr

/-- Post document as handed to the document store by the create handler
(the object literal `newPost` in App.tsx lines 141-156, plus the
`createdAt` override applied at the `addDoc` call site). -/
structure PostDoc where
  type : PostType
  title : String
  description : String
  location : String
  date : String
  category : String
  contactEmail : String
  contactPhone : String
  imageUrl : String
  createdBy : String
  creatorName : String
  creatorPhoto : String
  createdAt : CreatedAtField
  status : Status
  deriving DecidableEq, Repr

/-- The object literal `newPost` built by handleCreatePost (App.tsx lines
141-156): form fields copied verbatim, creator snapshot defaulted with the
JavaScript or-operator, client clock in `createdAt`, status forced OPEN. -/
def newPost (u : UserInfo) (form : NewPostForm) (imageUrl : String) (now : Int) : PostDoc :=
  { type := form.type
    title := form.title
    description := form.description
    location := form.location
    date := form.date
    category := form.category
    contactEmail := form.contactEmail
    contactPhone := form.contactPhone
    imageUrl := imageUrl
    createdBy := u.uid
    creatorName := jsOrStr u.displayName "Anonymous"
    creatorPhoto := jsOrStr u.photoURL ""
    createdAt := CreatedAtField.clientMillis now
    status := Status.OPEN }

/-- Document actually passed to `addDoc` (App.tsx lines 158-161): the spread
of `newPost` with `createdAt` overridden by the `serverTimestamp()` sentinel. -/
def sentPostDoc (u : UserInfo) (form : NewPostForm) (imageUrl : String) (now : Int) : PostDoc :=
  { newPost u form imageUrl now with createdAt := CreatedAtField.serverTimestamp }

/-- Remote calls a create invocation can issue, in order. -/
inductive RemoteCall where
  | uploadImage (file : ImageFile)
  | addPostDoc (d : PostDoc)
  deriving DecidableEq, Repr

/-- Recognizer for a post-document write among the remote calls. -/
def isPostWrite : RemoteCall → Bool
  | RemoteCall.addPostDoc _ => true
  | RemoteCall.uploadImage _ => false

/-- Outcome of one create invocation: the silent early return taken when no
session exists, the catch branch taken when the image upload threw, or a
created document. -/
inductive CreateOutcome where
  | noSession
  | uploadFailed (message : String)
  | created (d : PostDoc)
  deriving DecidableEq, Repr

/-- Trace of one create invocation: the remote calls issued, in program
order, and the outcome. -/
structure CreateRun where
  calls : List RemoteCall
  outcome : CreateOutcome
  deriving DecidableEq, Repr

/-- Model of `handleCreatePost` (App.tsx lines 130-171). The handler returns
immediately when `user` is null, before any remote call. Otherwise
`imageUrl` starts as the empty string; when a file is attached, the handler
awaits the Image Upload Gateway whose result for this invocation is the
`upload` argument (the returned URL, or the thrown error message), and a
thrown upload error reaches the catch branch before `addDoc` runs. On the
success path the document sent to `addDoc` is `sentPostDoc`. -/
def handleCreatePost (user : Option UserInfo) (form : NewPostForm) (now : Int)
    (upload : Except String String) : CreateRun :=
  match user with
  | none => { calls := [], outcome := CreateOutcome.noSession }
  | some u =>
    match form.imageFile with
    | none =>
      { calls := [RemoteCall.addPostDoc (sentPostDoc u form "" now)]
        outcome := CreateOutcome.created (sentPostDoc u form "" now) }
    | some file =>
      match upload with
      | Except.error msg =>
        { calls := [RemoteCall.uploadImage file]
          outcome := CreateOutcome.uploadFailed msg }
      | Except.ok url =>
        { calls := [RemoteCall.uploadImage file,
                    RemoteCall.addPostDoc (sentPostDoc u form url now)]
          outcome := CreateOutcome.created (sentPostDoc u form url now) }

/-- Parsed JSON body returned by the image host
(src/services/imgbb.ts: `data.success`, `data.data.url`, `data.error?.message`). -/
structure ImgBBResponse where
  success : Bool
  url : String
  errorMessage : Option String
  deriving DecidableEq, Repr

/-- Model of `uploadImageToImgBB` (src/services/imgbb.ts): returns the URL on
success, otherwise throws `data.error?.message || "Image upload failed"`. -/
def uploadImageToImgBB (resp : ImgBBResponse) : Except String String :=
  if resp.success then Except.ok resp.url
  else Except.error (jsOrStr resp.errorMessage "Image upload failed")

/-- Remote calls the resolve / delete handlers can issue. -/
inductive MutCall where
  | updateStatus (postId : String) (newStatus : Status)
  | deleteDoc (postId : String)
  deriving DecidableEq, Repr

/-- Model of `handleResolvePost` (App.tsx lines 173-181): after the
confirmation dialog it unconditionally issues `updateDoc` setting status to
RESOLVED. The session value is in scope in the component but this handler
never consults it, hence the ignored `_user` argument. -/
def handleResolvePost (_user : Option UserInfo) (postId : String)
    (confirmed : Bool) : List MutCall :=
  if confirmed then [MutCall.updateStatus postId Status.RESOLVED] else []

/-- Model of `handleDeletePost` (App.tsx lines 183-190): after the
confirmation dialog it unconditionally issues `deleteDoc`. The session
value is never consulted. -/
def handleDeletePost (_user : Option UserInfo) (postId : String)
    (confirmed : Bool) : List MutCall :=
  if confirmed then [MutCall.deleteDoc postId] else []

/-- Remote collection state restricted to the one mutable field, as an
association list from document id to status: the status of the first
document stored under the id, if any. -/
def statusOf (store : List (String × Status)) (postId : String) : Option Status :=
  match store with
  | [] => none
  | e :: rest => if e.1 == postId then some e.2 else statusOf rest postId

/-- Effect of `addDoc` on the remote collection: a new document appended
with the status carried by the written document. -/
def addPostToStore (store : List (String × Status)) (newId : String)
    (d : PostDoc) : List (String × Status) :=
  store ++ [(newId, d.status)]

/-- Effect of the resolve `updateDoc` on the remote collection: the targeted
document, if present, gets status RESOLVED; `updateDoc` on a missing id
throws, the handler catches, and the store is unchanged. -/
def resolveInStore (store : List (String × Status)) (postId : String) :
    List (String × Status) :=
  store.map (fun e => if e.1 == postId then (e.1, Status.RESOLVED) else e)

/-- Effect of `deleteDoc` on the remote collection: the targeted document is
removed; deleting a missing id leaves the store unchanged. -/
def deleteInStore (store : List (String × Status)) (postId : String) :
    List (String × Status) :=
  store.filter (fun e => !(e.1 == postId))

/-- Raw `createdAt` value found in a snapshot document before normalization:
the field can be absent, null, a Firestore timestamp object carrying
`toMillis`, or already a plain number. -/
inductive RawCreatedAt where
  | missing
  | nullVal
  | timestampObj (millis : Int)
  | numberVal (n : Int)
  deriving DecidableEq, Repr

/-- Normalization applied per document by the snapshot listener (App.tsx line
98): `data.createdAt && typeof data.createdAt.toMillis === "function" ?
data.createdAt.toMillis() : (data.createdAt || 0)`. A timestamp object is
truthy and has `toMillis`, so it is converted; absent and null values are
falsy and the or-operator yields 0; a plain number falls to the or-operator,
under which 0 stays 0 and any other number is kept. -/
def normalizeCreatedAt : RawCreatedAt → Int
  | RawCreatedAt.timestampObj millis => millis
  | RawCreatedAt.numberVal n => if n == 0 then 0 else n
  | RawCreatedAt.nullVal => 0
  | RawCreatedAt.missing => 0

/-- Raw snapshot document data, before the listener rebuilds the mirror. -/
structure RawDoc where
  type : PostType
  title : String
  description : String
  location : String
  date : String
  category : String
  imageUrl : String
  contactEmail : String
  contactPhone : String
  createdBy : String
  creatorName : String
  creatorPhoto : String
  createdAt : RawCreatedAt
  status : Status
  deriving DecidableEq, Repr

/-- Per-document mapping of the snapshot listener (App.tsx lines 93-99):
document id plus spread data, with `createdAt` normalized to a number. -/
def postFromDoc (docId : String) (d : RawDoc) : Post :=
  { id := docId
    type := d.type
    title := d.title
    description := d.description
    location := d.location
    date := d.date
    category := d.category
    imageUrl := d.imageUrl
    contactEmail := d.contactEmail
    contactPhone := d.contactPhone
    createdBy := d.createdBy
    creatorName := d.creatorName
    creatorPhoto := d.creatorPhoto
    createdAt := normalizeCreatedAt d.createdAt
    status := d.status }

/-- Whole-snapshot mapping replacing the mirror (App.tsx lines 92-101). -/
def postsFromSnapshot (docs : List (String × RawDoc)) : List Post :=
  docs.map (fun pr => postFromDoc pr.1 pr.2)

/-- Case-insensitive substring test written from the words of claim C1: the
query is, case-insensitively, a substring of the field. -/
def ciSubstring (q s : String) : Bool :=
  jsIncludes (jsToLowerCase s) (jsToLowerCase q)

/-- Per-post predicate written from the words of claim C1, for the refinement
comparison with the source filter: the type filter is ALL or equals the post
type, and the query is case-insensitively a substring of at least one of
title, description, location, category. -/
def specFilterMatches (q : String) (t : FilterType) (p : Post) : Bool :=
  (t == FilterType.ALL || filterTypeOfPost p.type == t) &&
    (ciSubstring q p.title || ciSubstring q p.description ||
      ciSubstring q p.location || ciSubstring q p.category)

/-- Scenario post a from the spec: LOST "Blue Wallet", createdAt 100. -/
def scenarioLostWallet : Post :=
  { id := "a", type := PostType.LOST, title := "Blue Wallet", description := ""
    location := "", date := "", category := "", imageUrl := "", contactEmail := ""
    contactPhone := "", createdBy := "", creatorName := "", creatorPhoto := ""
    createdAt := 100, status := Status.OPEN }

/-- Scenario post b from the spec: FOUND "Red Keys", createdAt 200. -/
def scenarioFoundKeys : Post :=
  { id := "b", type := PostType.FOUND, title := "Red Keys", description := ""
    location := "", date := "", category := "", imageUrl := "", contactEmail := ""
    contactPhone := "", createdBy := "", creatorName := "", creatorPhoto := ""
    createdAt := 200, status := Status.OPEN }

/-- Concrete user with null displayName and null photoURL. -/
def user0 : UserInfo :=
  { uid := "u1", displayName := none, email := none, photoURL := none }

/-- Concrete form with every required field empty and no image attached. -/
def form0 : NewPostForm :=
  { type := PostType.LOST, title := "", description := "", location := ""
    date := "", category := "", contactEmail := "", contactPhone := ""
    imageFile := none }

/-- Concrete attached image file. -/
def file0 : ImageFile := { fileName := "photo.png" }

/-- Concrete form carrying an attached image file. -/
def formWithImage : NewPostForm := { form0 with imageFile := some file0 }

/-- Concrete failing image-host response. -/
def resp0 : ImgBBResponse := { success := false, url := "", errorMessage := none }

/-! Helper lemmas on the string model. -/

/-- Lower-casing is idempotent on each character: `Char.toLower` maps the
basic latin upper-case range into the lower-case range, which it fixes. -/
theorem char_lower_lower (c : Char) : c.toLower.toLower = c.toLower := by
  by_cases h : 65 ≤ c.toNat ∧ c.toNat ≤ 90
  · obtain ⟨n, hn⟩ : ∃ n, c.toNat = n := ⟨c.toNat, rfl⟩
    rw [hn] at h
    obtain ⟨h1, h2⟩ := h
    interval_cases n <;> (rw [← Char.ofNat_toNat c, hn]; decide)
  · have hfix : c.toLower = c := by
      show (if c.toNat ≥ 65 ∧ c.toNat ≤ 90 then Char.ofNat (c.toNat + 32) else c) = c
      rw [if_neg h]
    simp only [hfix]

/-- Lower-casing collapses upper-casing on each character. -/
theorem char_lower_upper (c : Char) : c.toUpper.toLower = c.toLower := by
  by_cases h : 97 ≤ c.toNat ∧ c.toNat ≤ 122
  · obtain ⟨n, hn⟩ : ∃ n, c.toNat = n := ⟨c.toNat, rfl⟩
    rw [hn] at h
    obtain ⟨h1, h2⟩ := h
    interval_cases n <;> (rw [← Char.ofNat_toNat c, hn]; decide)
  · have hfix : c.toUpper = c := by
      show (if c.toNat ≥ 97 ∧ c.toNat ≤ 122 then Char.ofNat (c.toNat - 32) else c) = c
      rw [if_neg h]
    rw [hfix]

/-- Lower-casing a string twice equals lower-casing it once. -/
theorem jsToLowerCase_idem (s : String) :
    jsToLowerCase (jsToLowerCase s) = jsToLowerCase s := by
  unfold jsToLowerCase
  show String.mk ((s.data.map Char.toLower).map Char.toLower)
      = String.mk (s.data.map Char.toLower)
  congr 1
  rw [List.map_map]
  exact List.map_congr_left fun c _ => char_lower_lower c

/-- Lower-casing after upper-casing equals lower-casing directly. -/
theorem jsToLowerCase_upper (s : String) :
    jsToLowerCase (jsToUpperCase s) = jsToLowerCase s := by
  unfold jsToLowerCase jsToUpperCase
  show String.mk ((s.data.map Char.toUpper).map Char.toLower)
      = String.mk (s.data.map Char.toLower)
  congr 1
  rw [List.map_map]
  exact List.map_congr_left fun c _ => char_lower_upper c

/-- The empty needle is a substring of every character list. -/
theorem hasSubstrChars_nil (l : List Char) : hasSubstrChars [] l = true := by
  cases l <;> simp [hasSubstrChars, startsWithChars]

/-- The empty search term matches every post, mirroring that
`s.includes("")` is true in JavaScript. -/
theorem matchesSearch_empty (p : Post) : matchesSearch "" p = true := by
  unfold matchesSearch jsIncludes
  have hdata : (jsToLowerCase "").data = [] := rfl
  rw [hdata, hasSubstrChars_nil]
  simp

/-- The search clause only reads the lower-cased search term, so lower-casing
the term first does not change it. -/
theorem matchesSearch_lower (q : String) (p : Post) :
    matchesSearch (jsToLowerCase q) p = matchesSearch q p := by
  unfold matchesSearch
  rw [jsToLowerCase_idem]

/-- Upper-casing the search term does not change the search clause either. -/
theorem matchesSearch_upper (q : String) (p : Post) :
    matchesSearch (jsToUpperCase q) p = matchesSearch q p := by
  unfold matchesSearch
  rw [jsToLowerCase_upper]

/-- The per-post predicate of the source filter coincides with the predicate
written from the words of claim C1. -/
theorem sourcePred_eq_specPred (q : String) (t : FilterType) (p : Post) :
    (matchesSearch q p && matchesType t p) = specFilterMatches q t p := by
  unfold matchesSearch matchesType specFilterMatches ciSubstring
  exact Bool.and_comm _ _

/-- Filtering a list twice by one predicate equals filtering it once. -/
theorem filter_twice {α : Type} (p : α → Bool) (l : List α) :
    (l.filter p).filter p = l.filter p := by
  rw [List.filter_filter]
  exact List.filter_congr fun a _ => by cases hp : p a <;> simp [hp]

/-! Helper lemmas on the store model. -/

/-- Lookup after the resolve write: the looked-up document keeps its key, and
its status is forced to RESOLVED exactly when the lookup key is the resolve
target. -/
theorem statusOf_resolveInStore (store : List (String × Status)) (tid pid : String) :
    statusOf (resolveInStore store tid) pid =
      (statusOf store pid).map (fun s => if pid == tid then Status.RESOLVED else s) := by
  induction store with
  | nil => rfl
  | cons e rest ih =>
    simp only [resolveInStore, List.map_cons] at ih ⊢
    by_cases h2 : e.1 == tid
    · by_cases h1 : e.1 == pid
      · have hp := eq_of_beq h1
        have ht := eq_of_beq h2
        subst hp; subst ht
        simp [statusOf, h1]
      · simp [statusOf, h1, h2]
        simpa using ih
    · by_cases h1 : e.1 == pid
      · have hp := eq_of_beq h1
        subst hp
        have hpt : (e.1 == tid) = false := by simpa using h2
        simp [statusOf, h2, hpt]
      · simp [statusOf, h1, h2]
        simpa using ih

/-- Deleting one id leaves lookups under any other id unchanged. -/
theorem statusOf_deleteInStore_ne (store : List (String × Status)) (tid pid : String)
    (h : (pid == tid) = false) :
    statusOf (deleteInStore store tid) pid = statusOf store pid := by
  induction store with
  | nil => rfl
  | cons e rest ih =>
    by_cases h2 : e.1 == tid
    · have h1 : (e.1 == pid) = false := by
        have ht := eq_of_beq h2
        subst ht
        have hne : pid ≠ e.1 := beq_eq_false_iff_ne.mp h
        exact beq_eq_false_iff_ne.mpr fun hh => hne hh.symm
      simp [deleteInStore, List.filter_cons, h2, statusOf, h1] at ih ⊢
      exact ih
    · simp [deleteInStore, List.filter_cons, h2, statusOf] at ih ⊢
      cases h1 : (e.1 == pid) <;> simp [h1, ih]

/-- Deleting an id removes every document stored under it. -/
theorem statusOf_deleteInStore_self (store : List (String × Status)) (pid : String) :
    statusOf (deleteInStore store pid) pid = none := by
  induction store with
  | nil => rfl
  | cons e rest ih =>
    by_cases h : e.1 == pid
    · simp [deleteInStore, List.filter_cons, h] at ih ⊢
      exact ih
    · simp [deleteInStore, List.filter_cons, h, statusOf] at ih ⊢
      exact ih

/-- Appending a freshly created document does not change the lookup of a
document that already resolves in the store. -/
theorem statusOf_addPostToStore (store : List (String × Status)) (newId pid : String)
    (d : PostDoc) (s : Status) :
    statusOf store pid = some s → statusOf (addPostToStore store newId d) pid = some s := by
  induction store with
  | nil => intro h; simp [statusOf] at h
  | cons e rest ih =>
    intro h
    have hsplit : addPostToStore (e :: rest) newId d = e :: addPostToStore rest newId d := rfl
    rw [hsplit]
    by_cases h1 : e.1 == pid
    · simp [statusOf, h1] at h ⊢
      exact h
    · simp [statusOf, h1] at h ⊢
      exact ih h

/-! Claim theorems. -/

/-- Claim C1: for every mirror, query string and type filter, the filter
operation returns exactly the posts satisfying the predicate stated by the
claim (type filter is ALL or equals the post type, and the query is
case-insensitively a substring of at least one of title, description,
location, category); the empty query matches every post; the output is a
subsequence of the input mirror, so relative order is preserved; and on the
two-post scenario mirror the query "key" with filter ALL returns exactly
the FOUND "Red Keys" post. -/
theorem filteredPosts_spec (M : List Post) (q : String) (t : FilterType) :
    filteredPosts M q t = M.filter (specFilterMatches q t)
    ∧ (∀ p : Post, matchesSearch "" p = true)
    ∧ List.Sublist (filteredPosts M q t) M
    ∧ filteredPosts [scenarioLostWallet, scenarioFoundKeys] "key" FilterType.ALL
        = [scenarioFoundKeys] := by
  refine ⟨?_, matchesSearch_empty, ?_, ?_⟩
  · unfold filteredPosts
    exact List.filter_congr fun p _ => sourcePred_eq_specPred q t p
  · exact List.filter_sublist M
  · decide

/-- Claim C8: the filter is idempotent, filtering the filtered mirror again
with the same query and type yields the same list, and it is deterministic,
two calls on identical inputs being structurally equal. -/
theorem filteredPosts_idempotent (M : List Post) (q : String) (t : FilterType) :
    filteredPosts (filteredPosts M q t) q t = filteredPosts M q t
    ∧ filteredPosts M q t = filteredPosts M q t := by
  refine ⟨?_, rfl⟩
  unfold filteredPosts
  exact filter_twice _ M

/-- Claim C9: the filter is case-insensitive in the query: lower-casing or
upper-casing the query does not change the result, and in particular the
queries "BACKPACK" and "backpack" yield identical results. -/
theorem filteredPosts_case_insensitive (M : List Post) (q : String) (t : FilterType) :
    filteredPosts M (jsToLowerCase q) t = filteredPosts M q t
    ∧ filteredPosts M (jsToUpperCase q) t = filteredPosts M q t
    ∧ filteredPosts M "BACKPACK" t = filteredPosts M "backpack" t := by
  have hlow : ∀ r : String, filteredPosts M (jsToLowerCase r) t = filteredPosts M r t := by
    intro r
    unfold filteredPosts
    exact List.filter_congr fun p _ => by rw [matchesSearch_lower]
  refine ⟨hlow q, ?_, ?_⟩
  · unfold filteredPosts
    exact List.filter_congr fun p _ => by rw [matchesSearch_upper]
  · have h1 : jsToLowerCase "BACKPACK" = jsToLowerCase "backpack" := by decide
    calc filteredPosts M "BACKPACK" t
        = filteredPosts M (jsToLowerCase "BACKPACK") t := (hlow "BACKPACK").symm
      _ = filteredPosts M (jsToLowerCase "backpack") t := by rw [h1]
      _ = filteredPosts M "backpack" t := hlow "backpack"

/-- Claim C2 (amended): a create invocation with no authenticated session
returns silently before any remote call, issuing no write but raising no
error, while the resolve and delete handlers perform no session check at
all: once the confirmation dialog is accepted they issue their remote write
whatever the session state. -/
theorem mutations_without_session (form : NewPostForm) (now : Int)
    (upload : Except String String) (user : Option UserInfo) (pid : String) :
    handleCreatePost none form now upload
        = { calls := [], outcome := CreateOutcome.noSession }
    ∧ handleResolvePost user pid true = [MutCall.updateStatus pid Status.RESOLVED]
    ∧ handleDeletePost user pid true = [MutCall.deleteDoc pid] :=
  ⟨rfl, rfl, rfl⟩

/-- Claim C2 counterexample: with no authenticated session the resolve
handler still issues the remote status write, so the claim that every
mutation without a session fails with AuthRequiredError before any remote
call, with no write issued, is false on the code. -/
theorem mutations_without_session_cex :
    handleResolvePost none "p1" true = [MutCall.updateStatus "p1" Status.RESOLVED]
    ∧ handleResolvePost none "p1" true ≠ [] :=
  ⟨rfl, by decide⟩

/-- Claim C3 (amended): the create handler performs no field validation:
with an authenticated session and no image attached it issues the
post-document write and reports a created post whatever the form fields
contain, required fields included; required fields are enforced only by the
HTML form attributes in the presentation layer. -/
theorem createPost_no_validation (u : UserInfo) (form : NewPostForm) (now : Int)
    (upload : Except String String) (h : form.imageFile = none) :
    (handleCreatePost (some u) form now upload).calls
        = [RemoteCall.addPostDoc (sentPostDoc u form "" now)]
    ∧ (handleCreatePost (some u) form now upload).outcome
        = CreateOutcome.created (sentPostDoc u form "" now) := by
  unfold handleCreatePost
  rw [h]
  exact ⟨rfl, rfl⟩

/-- Claim C3 witness: the amended theorem applied to the concrete all-empty
form. -/
theorem createPost_no_validation_witness :
    form0.imageFile = none
    ∧ (handleCreatePost (some user0) form0 0 (Except.ok "")).calls
        = [RemoteCall.addPostDoc (sentPostDoc user0 form0 "" 0)] :=
  ⟨rfl, (createPost_no_validation user0 form0 0 (Except.ok "") rfl).1⟩

/-- Claim C3 counterexample: with every required field empty the create
invocation still writes a post document and reports success, refuting the
claim that a create with missing required fields fails with
ValidationError before any remote call and writes no post document. -/
theorem createPost_no_validation_cex :
    form0.title = "" ∧ form0.description = "" ∧ form0.location = ""
    ∧ form0.date = "" ∧ form0.category = "" ∧ form0.contactEmail = ""
    ∧ ((handleCreatePost (some user0) form0 0 (Except.ok "")).calls.any isPostWrite) = true
    ∧ (handleCreatePost (some user0) form0 0 (Except.ok "")).outcome
        = CreateOutcome.created (sentPostDoc user0 form0 "" 0) := by
  exact ⟨rfl, rfl, rfl, rfl, rfl, rfl, rfl, rfl⟩

/-- Claim C4: with an image file attached the upload call is issued first;
when the upload fails, the run consists of the upload call alone, the
outcome is the upload failure, and no post-document write occurs, so the
remote post collection is unchanged; on upload success the document write
follows the upload call; and the gateway reports an error whenever the
image-host response has success false. -/
theorem createPost_upload_atomic (u : UserInfo) (form : NewPostForm) (now : Int)
    (file : ImageFile) (msg url : String) (resp : ImgBBResponse)
    (hfile : form.imageFile = some file) (hresp : resp.success = false) :
    (handleCreatePost (some u) form now (Except.error msg)).calls
        = [RemoteCall.uploadImage file]
    ∧ (handleCreatePost (some u) form now (Except.error msg)).outcome
        = CreateOutcome.uploadFailed msg
    ∧ ((handleCreatePost (some u) form now (Except.error msg)).calls.any isPostWrite) = false
    ∧ (handleCreatePost (some u) form now (Except.ok url)).calls
        = [RemoteCall.uploadImage file, RemoteCall.addPostDoc (sentPostDoc u form url now)]
    ∧ uploadImageToImgBB resp
        = Except.error (jsOrStr resp.errorMessage "Image upload failed") := by
  unfold handleCreatePost
  rw [hfile]
  refine ⟨rfl, rfl, rfl, rfl, ?_⟩
  unfold uploadImageToImgBB
  rw [hresp]
  rfl

/-- Claim C4 witness: the theorem applied to the concrete form with an
attached file and a failing upload. -/
theorem createPost_upload_atomic_witness :
    formWithImage.imageFile = some file0
    ∧ resp0.success = false
    ∧ (handleCreatePost (some user0) formWithImage 0 (Except.error "boom")).calls
        = [RemoteCall.uploadImage file0] := by
  refine ⟨rfl, rfl, ?_⟩
  exact (createPost_upload_atomic user0 formWithImage 0 file0 "boom" "u" resp0 rfl rfl).1

/-- Claim C5: every created document starts with status OPEN, both in the
intermediate object and in the document sent to the store; resolving an
already-RESOLVED id leaves its status RESOLVED; no operation (resolve of
any target, delete of any target, appending a created document) ever makes
a RESOLVED post look up as anything but RESOLVED; and a resolve leaves any
looked-up status either unchanged or RESOLVED, so the only possible
transition is OPEN to RESOLVED. -/
theorem status_lifecycle (u : UserInfo) (form : NewPostForm) (url : String) (now : Int)
    (store : List (String × Status)) (pid tid newId : String) (d : PostDoc) (s : Status) :
    (newPost u form url now).status = Status.OPEN
    ∧ (sentPostDoc u form url now).status = Status.OPEN
    ∧ (statusOf store pid = some Status.RESOLVED →
        statusOf (resolveInStore store pid) pid = some Status.RESOLVED)
    ∧ (statusOf store pid = some Status.RESOLVED →
        (∀ s2, statusOf (resolveInStore store tid) pid = some s2 → s2 = Status.RESOLVED)
        ∧ (∀ s2, statusOf (deleteInStore store tid) pid = some s2 → s2 = Status.RESOLVED)
        ∧ (∀ s2, statusOf (addPostToStore store newId d) pid = some s2 → s2 = Status.RESOLVED))
    ∧ (statusOf store pid = some s →
        statusOf (resolveInStore store tid) pid = some s
        ∨ statusOf (resolveInStore store tid) pid = some Status.RESOLVED) := by
  refine ⟨rfl, rfl, ?_, ?_, ?_⟩
  · intro h
    rw [statusOf_resolveInStore, h]
    simp
  · intro h
    refine ⟨?_, ?_, ?_⟩
    · intro s2 h2
      rw [statusOf_resolveInStore, h] at h2
      simp at h2
      exact h2.symm
    · intro s2 h2
      by_cases hpt : (pid == tid)
      · have hp := eq_of_beq hpt
        subst hp
        rw [statusOf_deleteInStore_self] at h2
        cases h2
      · have hf : (pid == tid) = false := by simpa using hpt
        rw [statusOf_deleteInStore_ne store tid pid hf, h] at h2
        injection h2 with hh
        exact hh.symm
    · intro s2 h2
      have h3 := statusOf_addPostToStore store newId pid d Status.RESOLVED h
      rw [h3] at h2
      injection h2 with hh
      exact hh.symm
  · intro h
    rw [statusOf_resolveInStore, h]
    by_cases hpt : (pid == tid) = true
    · right; simp [hpt]
    · left
      have hf : (pid == tid) = false := by simpa using hpt
      simp [hf]

/-- Claim C5 witness: resolving the already-RESOLVED document p leaves it
RESOLVED. -/
theorem status_lifecycle_witness :
    statusOf [("p", Status.RESOLVED)] "p" = some Status.RESOLVED
    ∧ statusOf (resolveInStore [("p", Status.RESOLVED)] "p") "p" = some Status.RESOLVED := by
  refine ⟨by decide, ?_⟩
  exact ((status_lifecycle user0 form0 "" 0 [("p", Status.RESOLVED)] "p" "q" "n"
      (sentPostDoc user0 form0 "" 0) Status.RESOLVED).2.2.1) (by decide)

/-- Claim C6: the document handed to the store by a successful create
carries the server-timestamp sentinel in createdAt, overriding the
client-clock value held by the intermediate object. -/
theorem createdAt_from_server (u : UserInfo) (form : NewPostForm) (now : Int)
    (upload : Except String String) (url : String) (d : PostDoc) :
    (sentPostDoc u form url now).createdAt = CreatedAtField.serverTimestamp
    ∧ (newPost u form url now).createdAt = CreatedAtField.clientMillis now
    ∧ ((handleCreatePost (some u) form now upload).outcome = CreateOutcome.created d →
        d.createdAt = CreatedAtField.serverTimestamp) := by
  refine ⟨rfl, rfl, ?_⟩
  intro h
  unfold handleCreatePost at h
  cases hf : form.imageFile with
  | none =>
    rw [hf] at h
    simp at h
    rw [← h]
    rfl
  | some file =>
    rw [hf] at h
    cases upload with
    | error msg => simp at h
    | ok url2 =>
      simp at h
      rw [← h]
      rfl

/-- Claim C6 witness: the theorem applied to a concrete successful create. -/
theorem createdAt_from_server_witness :
    (handleCreatePost (some user0) form0 0 (Except.ok "")).outcome
        = CreateOutcome.created (sentPostDoc user0 form0 "" 0)
    ∧ (sentPostDoc user0 form0 "" 0).createdAt = CreatedAtField.serverTimestamp := by
  refine ⟨rfl, ?_⟩
  exact (createdAt_from_server user0 form0 0 (Except.ok "") ""
      (sentPostDoc user0 form0 "" 0)).2.2 rfl

/-- Claim C7: the mirror produced from a snapshot carries, post by post, the
normalized numeric createdAt of the corresponding document: a timestamp
object becomes its epoch milliseconds, and an absent or null value
surfaces as 0; the normalization is total into plain numbers, so no null or
pending marker ever reaches the mirror. -/
theorem snapshot_createdAt_normalized (docs : List (String × RawDoc)) (m : Int) :
    (postsFromSnapshot docs).map Post.createdAt
        = docs.map (fun pr => normalizeCreatedAt pr.2.createdAt)
    ∧ normalizeCreatedAt (RawCreatedAt.timestampObj m) = m
    ∧ normalizeCreatedAt RawCreatedAt.missing = 0
    ∧ normalizeCreatedAt RawCreatedAt.nullVal = 0 := by
  refine ⟨?_, rfl, rfl, rfl⟩
  unfold postsFromSnapshot
  rw [List.map_map]
  rfl

/-- Claim C10: on every successful create, a null displayName yields the
creator name "Anonymous" and a null photoURL yields the empty creator
photo, the two fields being plain strings and never null. -/
theorem creator_defaults (u : UserInfo) (form : NewPostForm) (now : Int)
    (upload : Except String String) (d : PostDoc)
    (h : (handleCreatePost (some u) form now upload).outcome = CreateOutcome.created d) :
    (u.displayName = none → d.creatorName = "Anonymous")
    ∧ (u.photoURL = none → d.creatorPhoto = "") := by
  have hd : ∃ url, d = sentPostDoc u form url now := by
    unfold handleCreatePost at h
    cases hf : form.imageFile with
    | none =>
      rw [hf] at h
      simp at h
      exact ⟨"", h.symm⟩
    | some file =>
      rw [hf] at h
      cases upload with
      | error msg => simp at h
      | ok url =>
        simp at h
        exact ⟨url, h.symm⟩
  obtain ⟨url, hurl⟩ := hd
  subst hurl
  constructor
  · intro hdn
    show jsOrStr u.displayName "Anonymous" = "Anonymous"
    rw [hdn]
    rfl
  · intro hp
    show jsOrStr u.photoURL "" = ""
    rw [hp]
    rfl

/-- Claim C10 witness: the theorem applied to a concrete user with null
displayName and null photoURL. -/
theorem creator_defaults_witness :
    (handleCreatePost (some user0) form0 0 (Except.ok "")).outcome
        = CreateOutcome.created (sentPostDoc user0 form0 "" 0)
    ∧ user0.displayName = none ∧ user0.photoURL = none
    ∧ (sentPostDoc user0 form0 "" 0).creatorName = "Anonymous"
    ∧ (sentPostDoc user0 form0 "" 0).creatorPhoto = "" := by
  have h := creator_defaults user0 form0 0 (Except.ok "")
      (sentPostDoc user0 form0 "" 0) rfl
  exact ⟨rfl, rfl, rfl, h.1 rfl, h.2 rfl⟩
